import Mathlib

/-!
Verification development for the dual-audio-to-email pipeline of the CRM
backend (`backend/services/audio_service/audio_service_minimal.py` and
`backend/services/audio_service/gemini_service.py`).

The Python code is shallowly embedded: external collaborators (the metadata
store, the filesystem, the `ffmpeg` transcoding tool and the Gemini provider)
are modelled as explicit environment fields, and each `raise Exception(msg)`
site of the orchestrator becomes a constructor of an error type whose
`message` function renders the exact f-string of the source.  Recording
identifiers are modelled as strings already in canonical (lower-case) UUID
textual form, so that Python's `str(uuid.UUID(x)) = x` round trip is the
identity and both the SQL lookups and the role-assignment comparisons are
plain string equality, as in the source.
-/

set_option autoImplicit false

/-! ## Path handling (embedding of `pathlib.Path.suffix` / `with_suffix`)

`Path(p).suffix` is the part of the final component from its last dot,
provided that dot is neither the first nor the last character of the name;
`with_suffix` replaces that part (or appends when there is none).  We work on
reversed character lists: `breakAtSlashRev` splits the reversed path at the
first `/` (i.e. the last `/` of the path), and `splitDotRev` splits the
reversed name at the first `.` (i.e. the last `.` of the name). -/

/-- Split a reversed path at the first `/`: returns (reversed final
component, reversed remainder including the slash). -/
def breakAtSlashRev : List Char → List Char × List Char
  | [] => ([], [])
  | c :: rest =>
    if c = '/' then ([], c :: rest)
    else
      let p := breakAtSlashRev rest
      (c :: p.1, p.2)

/-- Split a reversed file name at the first `.`: `some (ext, stem)` where
`ext` is the reversed extension without the dot and `stem` the reversed stem;
`none` when the name has no dot. -/
def splitDotRev : List Char → Option (List Char × List Char)
  | [] => none
  | c :: rest =>
    if c = '.' then some ([], rest)
    else (splitDotRev rest).map (fun p => (c :: p.1, p.2))

/-- Reversed (final component, directory part) of a path string. -/
def pathRevSplit (p : String) : List Char × List Char :=
  breakAtSlashRev p.toList.reverse

/-- Embedding of `pathlib.Path(p).suffix`: the last extension of the final
component, empty when the dot is missing, leading, or trailing. -/
def pySuffix (p : String) : String :=
  match splitDotRev (pathRevSplit p).1 with
  | some (e, s) => if e ≠ [] ∧ s ≠ [] then ⟨'.' :: e.reverse⟩ else ""
  | none => ""

/-- Embedding of `str(pathlib.Path(p).with_suffix(newSuf))`: replaces the
suffix of the final component, or appends `newSuf` when there is none. -/
def pyWithSuffix (p : String) (newSuf : String) : String :=
  let nd := pathRevSplit p
  let newName : List Char :=
    match splitDotRev nd.1 with
    | some (e, s) =>
      if e ≠ [] ∧ s ≠ [] then s.reverse ++ newSuf.toList
      else nd.1.reverse ++ newSuf.toList
    | none => nd.1.reverse ++ newSuf.toList
  ⟨nd.2.reverse ++ newName⟩

/-- Embedding of `str.lower()` (only ASCII extensions occur here). -/
def lowerStr (s : String) : String :=
  ⟨s.toList.map Char.toLower⟩

/-- `Path(p).suffix.lower()`, the quantity all format checks branch on. -/
def sfxOf (p : String) : String :=
  lowerStr (pySuffix p)

/-- The source's list of convertible extensions
(`['.webm', '.wav', '.m4a', '.ogg']`). -/
def convertibleExts : List String :=
  [".webm", ".wav", ".m4a", ".ogg"]

/-! ## External collaborators and data model -/

/-- Outcome of one `subprocess.run(['ffmpeg', ...], check=True)` invocation:
success, `CalledProcessError` (tool reported an error), or
`FileNotFoundError` (tool absent from the environment). -/
inductive FfmpegResult where
  | success
  | calledProcessError (stderr : String)
  | fileNotFoundError
  deriving DecidableEq

/-- Outcome of one `database.execute(UPDATE ...)` call: the affected row
count, or a raised database exception. -/
inductive DbOutcome where
  | rowsAffected (n : Nat)
  | raises (msg : String)
  deriving DecidableEq

/-- Observable outcome of `_update_database_for_mp3` (which logs and never
raises): which table was updated, the silent not-found return, or the
swallowed exception. -/
inductive DbUpdateLog where
  | actionUpdated
  | contextUpdated
  | notFoundInEither
  | failed (msg : String)
  deriving DecidableEq

/-- One row of `action_recordings` or `context_recordings`, restricted to
the columns the pipeline reads.  A NULL / empty `file_path` is modelled as
`""` (both are falsy in the source's `if not file_path` check). -/
structure RecordingRow where
  id : String
  userId : String
  filePath : String
  filename : String
  recordingType : String
  deriving DecidableEq

/-- The environment a pipeline invocation runs against: both recording
tables, the filesystem, the transcoding tool, the metadata store's update
behaviour, and the Gemini provider (upload settling either in a raised
transport fault or in a terminal state name, and the generation call). -/
structure Env where
  action : List RecordingRow
  context : List RecordingRow
  fsExists : String → Bool
  ffmpeg : String → FfmpegResult
  dbActionUpdate : String → DbOutcome
  dbContextUpdate : String → DbOutcome
  uploadResult : String → Except String String
  generate : Except String String

/-- Result of `_ensure_mp3_format`: the returned path, how many times the
transcoding tool was invoked, the metadata-update outcomes, and the
filesystem after the call (a successful conversion creates the sibling). -/
structure NormResult where
  path : String
  toolCalls : Nat
  dbLogs : List DbUpdateLog
  fs : String → Bool

/-- Side effects of one orchestrator invocation, counted by kind. -/
structure Effects where
  toolCalls : Nat
  dbUpdates : Nat
  geminiCalls : Nat
  deriving DecidableEq

/-- The packaged result dict of the orchestrator's success path. -/
structure EmailResult where
  email : String
  analysisText : String
  processingMethod : String
  deriving DecidableEq

/-! ## Format normalizer (`_ensure_mp3_format`, `_update_database_for_mp3`) -/

/-- Embedding of `_update_database_for_mp3`: try the `action_recordings`
update; on zero affected rows try `context_recordings`; on zero rows again,
log and return silently.  The enclosing `try/except` swallows any raised
database exception, so the function is total and never raises. -/
def update_database_for_mp3 (env : Env) (recordingId _mp3Path : String) : DbUpdateLog :=
  match env.dbActionUpdate recordingId with
  | .raises m => .failed m
  | .rowsAffected n =>
    if n = 0 then
      match env.dbContextUpdate recordingId with
      | .raises m => .failed m
      | .rowsAffected k => if k = 0 then .notFoundInEither else .contextUpdated
    else .actionUpdated

/-- The metadata updates performed for an optional recording id
(`if recording_id:` — Python truthiness, so `None` and `""` both skip). -/
def dbLogsFor (env : Env) (rid : Option String) (mp3Path : String) : List DbUpdateLog :=
  match rid with
  | some r => if r ≠ "" then [update_database_for_mp3 env r mp3Path] else []
  | none => []

/-- Embedding of `_ensure_mp3_format`: `.mp3` returns unchanged; a
convertible extension reuses an existing sibling or invokes ffmpeg (catching
`CalledProcessError` and `FileNotFoundError` by returning the original
path); any other extension passes through.  A failed tool run is modelled as
leaving the filesystem unchanged. -/
def ensure_mp3_format (env : Env) (filePath : String) (recordingId : Option String) : NormResult :=
  if sfxOf filePath = ".mp3" then
    ⟨filePath, 0, [], env.fsExists⟩
  else if sfxOf filePath ∈ convertibleExts then
    let mp3Path := pyWithSuffix filePath ".mp3"
    if env.fsExists mp3Path then
      ⟨mp3Path, 0, dbLogsFor env recordingId mp3Path, env.fsExists⟩
    else
      match env.ffmpeg filePath with
      | .success =>
        ⟨mp3Path, 1, dbLogsFor env recordingId mp3Path,
          fun q => (q == mp3Path) || env.fsExists q⟩
      | .calledProcessError _ => ⟨filePath, 1, [], env.fsExists⟩
      | .fileNotFoundError => ⟨filePath, 1, [], env.fsExists⟩
  else
    ⟨filePath, 0, [], env.fsExists⟩

example : (ensure_mp3_format
    ⟨[], [], fun _ => false, fun _ => .fileNotFoundError,
     fun _ => .rowsAffected 1, fun _ => .rowsAffected 1,
     fun _ => .ok "ACTIVE", .ok "x"⟩ "up/a.webm" none).path = "up/a.webm" := by
  decide

example : (ensure_mp3_format
    ⟨[], [], fun _ => false, fun _ => .success,
     fun _ => .rowsAffected 1, fun _ => .rowsAffected 1,
     fun _ => .ok "ACTIVE", .ok "x"⟩ "up/a.webm" none).path = "up/a.mp3" := by
  decide

/-! ## Recording resolver and orchestrator
(`generate_email_from_dual_audio_direct`)

Every failure site of the Python function is a `raise Exception(f"...")`;
each becomes a constructor below, and `PipeError.message` renders the exact
message string.  The function's trailing
`except Exception as e: raise Exception(f"Failed to process audio: {str(e)}")`
is the wrapping step of `generate_email_from_dual_audio_direct` at the
bottom.  The `uuid.UUID` parse of the three identifiers is not modelled:
identifiers are taken to be canonical UUID strings (see the file comment). -/

/-- The typed failures of the pipeline, one constructor per `raise` site. -/
inductive PipeError where
  | notFound (relId contentId : String)
  | ownership (userId : String) (users : List String)
  | missingRecording (missingType missingId : String)
  | unexpectedCount (n : Nat)
  | noFilePath (recId : String)
  | fileNotFound (path recId : String)
  | mappingFailed (relPath contentPath : Option String)
  deriving DecidableEq

/-- Python `repr` of a list of strings, as printed into the ownership
message (`['user-a', 'user-b']`). -/
def pyStrList (users : List String) : String :=
  "[" ++ String.intercalate ", " (users.map (fun u => "\x27" ++ u ++ "\x27")) ++ "]"

/-- Python f-string rendering of an optional path (`None` for absent). -/
def optShow : Option String → String
  | none => "None"
  | some s => s

/-- The exact `Exception` message raised at each failure site. -/
def PipeError.message : PipeError → String
  | .notFound r c =>
    "No recordings found with IDs " ++ r ++ " and " ++ c
  | .ownership u users =>
    "No recordings found for user " ++ u ++
      ". Recordings exist but belong to different user(s): " ++ pyStrList users
  | .missingRecording t i =>
    "Missing " ++ t ++ " recording with ID: " ++ i
  | .unexpectedCount n =>
    "Expected 2 recordings, found " ++ toString n
  | .noFilePath i =>
    "Recording " ++ i ++ " has no file path in database"
  | .fileNotFound p i =>
    "Audio file not found: " ++ p ++ " for recording " ++ i
  | .mappingFailed r c =>
    "Could not map recording IDs to file paths. Relationship: " ++ optShow r ++
      ", Content: " ++ optShow c

/-- Whether a failure is the ownership-specific one (recordings exist but
under a different owner). -/
def isOwnershipError : PipeError → Bool
  | .ownership _ _ => true
  | _ => false

/-- Whether a failure is the defensive unexpected-row-count one (the code's
only ambiguous-count error). -/
def isUnexpectedCountError : PipeError → Bool
  | .unexpectedCount _ => true
  | _ => false

/-- The `SELECT ... WHERE id IN (:relationship_id, :content_id) AND
user_id = :user_id` lookup on one table. -/
def fetchOwned (table : List RecordingRow) (relId contentId userId : String) :
    List RecordingRow :=
  table.filter (fun r => (r.id == relId || r.id == contentId) && r.userId == userId)

/-- The debug `SELECT ... WHERE id IN (:relationship_id, :content_id)`
lookup without the owner filter. -/
def fetchAny (table : List RecordingRow) (relId contentId : String) :
    List RecordingRow :=
  table.filter (fun r => r.id == relId || r.id == contentId)

/-- `recordings = list(action_recordings) + list(context_recordings)`. -/
def ownedAll (env : Env) (relId contentId userId : String) : List RecordingRow :=
  fetchOwned env.action relId contentId userId ++ fetchOwned env.context relId contentId userId

/-- The combined owner-free debug lookup. -/
def anyAll (env : Env) (relId contentId : String) : List RecordingRow :=
  fetchAny env.action relId contentId ++ fetchAny env.context relId contentId

/-- Python truthiness of the two optional path variables
(`if not relationship_audio_path or not content_audio_path`). -/
def optFalsy : Option String → Bool
  | none => true
  | some s => s == ""

/-- The per-recording loop of the resolver: validate that each row has a
file path that exists on disk, then assign it a role by comparing its
identifier (as a string) against the two input identifiers; rows matching
neither are skipped with only a log line. -/
def assignRoles (env : Env) (relId contentId : String) :
    List RecordingRow → Option String → Option String →
    Except PipeError (Option String × Option String)
  | [], relP, conP => .ok (relP, conP)
  | r :: rest, relP, conP =>
    if r.filePath = "" then .error (.noFilePath r.id)
    else if env.fsExists r.filePath then
      if r.id = relId then assignRoles env relId contentId rest (some r.filePath) conP
      else if r.id = contentId then assignRoles env relId contentId rest relP (some r.filePath)
      else assignRoles env relId contentId rest relP conP
    else .error (.fileNotFound r.filePath r.id)

/-- The resolution stage: the row-count case split of the source
(0 rows with/without a foreign-owner match, 1 row, more than 2 rows), then
the per-recording validation/role-assignment loop, then the final mapping
check. -/
def resolveRecordings (env : Env) (relId contentId userId : String) :
    Except PipeError (String × String) :=
  match ownedAll env relId contentId userId with
  | [] =>
    if anyAll env relId contentId = [] then .error (.notFound relId contentId)
    else .error (.ownership userId ((anyAll env relId contentId).map RecordingRow.userId))
  | [r] =>
    if r.id = relId then .error (.missingRecording "content" contentId)
    else .error (.missingRecording "relationship" relId)
  | r1 :: r2 :: rest =>
    if rest.length ≠ 0 then .error (.unexpectedCount (rest.length + 2))
    else
      match assignRoles env relId contentId (r1 :: r2 :: rest) none none with
      | .error e => .error e
      | .ok (relP, conP) =>
        if optFalsy relP || optFalsy conP then .error (.mappingFailed relP conP)
        else .ok (relP.getD "", conP.getD "")

/-! ## AI email synthesizer (`gemini_service.generate_email_from_audio_files_direct`)

The upload of each file and the subsequent readiness poll are summarised by
`Env.uploadResult`: either a raised transport fault, or the terminal state
name the poll loop settles on (the loop exits once neither file is
`"PROCESSING"`; its unbounded waiting is outside this embedding).  The
generation call is `Env.generate`.  The recipient parameters are accepted
and ignored by the source (the fixed prompt does not interpolate them), so
they are omitted here. -/

/-- The errors-as-content payload for an upload that settled non-ready. -/
def fileFailedMessage (n : Nat) (state : String) : String :=
  "❌ Error: Audio file " ++ toString n ++
    " could not be processed by Gemini. File state: " ++ state ++
    ". This usually happens with .webm files - try uploading .mp3 files instead."

/-- The errors-as-content payload for a generation-call exception. -/
def apiFailedMessage (m : String) : String :=
  "❌ Error: Gemini API failed to process the audio files. Error: " ++ m ++
    ". This often happens with .webm files - try uploading .mp3 files instead."

/-- The body of the synthesizer inside its outer `try`: `.error` marks an
exception that would reach the outer handler. -/
def gemini_body (env : Env) (relPath contentPath : String) : Except String String :=
  match env.uploadResult relPath with
  | .error m => .error m
  | .ok s1 =>
    match env.uploadResult contentPath with
    | .error m => .error m
    | .ok s2 =>
      if s1 ≠ "ACTIVE" then .ok (fileFailedMessage 1 s1)
      else if s2 ≠ "ACTIVE" then .ok (fileFailedMessage 2 s2)
      else
        match env.generate with
        | .ok text => .ok text
        | .error m => .ok (apiFailedMessage m)

/-- Embedding of `generate_email_from_audio_files_direct`: the outer
`except` turns any escaping exception into the
`"Error generating email: ..."` return string, so the function always
returns text through the ordinary channel. -/
def generate_email_from_audio_files_direct (env : Env) (relPath contentPath : String) :
    String :=
  match gemini_body env relPath contentPath with
  | .ok s => s
  | .error m => "Error generating email: " ++ m

/-! ## Pipeline orchestrator -/

/-- The orchestrator body inside its outer `try`: resolve, then normalize
each path (the second call sees the filesystem left by the first), then
synthesize, then package.  Side effects are tallied alongside. -/
def dual_audio_body (env : Env) (relId contentId userId : String) :
    Except PipeError EmailResult × Effects :=
  match resolveRecordings env relId contentId userId with
  | .error e => (.error e, ⟨0, 0, 0⟩)
  | .ok (relPath, contentPath) =>
    let n1 := ensure_mp3_format env relPath (some relId)
    let env2 := { env with fsExists := n1.fs }
    let n2 := ensure_mp3_format env2 contentPath (some contentId)
    let email := generate_email_from_audio_files_direct env n1.path n2.path
    (.ok ⟨email, "Generated by Gemini 2.5 Pro", "direct_audio_to_gemini"⟩,
      ⟨n1.toolCalls + n2.toolCalls, n1.dbLogs.length + n2.dbLogs.length, 1⟩)

/-- Embedding of `generate_email_from_dual_audio_direct`: the body wrapped
by the boundary handler
`except Exception as e: raise Exception(f"Failed to process audio: {str(e)}")`. -/
def generate_email_from_dual_audio_direct (env : Env) (relId contentId userId : String) :
    Except String EmailResult × Effects :=
  match dual_audio_body env relId contentId userId with
  | (.error e, eff) => (.error ("Failed to process audio: " ++ e.message), eff)
  | (.ok r, eff) => (.ok r, eff)


/-! ## Path lemmas

The normalizer's cache-hit and conversion branches both return
`pyWithSuffix p ".mp3"`; these lemmas show that path's own suffix is
`".mp3"`, so a second normalizer call takes the already-canonical fast
path. -/

lemma breakAtSlashRev_no_slash (l : List Char) : '/' ∉ (breakAtSlashRev l).1 := by
  induction l with
  | nil => simp [breakAtSlashRev]
  | cons c rest ih =>
    by_cases h : c = '/'
    · simp [breakAtSlashRev, h]
    · simp only [breakAtSlashRev, if_neg h, List.mem_cons, not_or]
      exact ⟨fun hc => h hc.symm, ih⟩

lemma breakAtSlashRev_snd (l : List Char) :
    breakAtSlashRev (breakAtSlashRev l).2 = ([], (breakAtSlashRev l).2) := by
  induction l with
  | nil => simp [breakAtSlashRev]
  | cons c rest ih =>
    by_cases h : c = '/'
    · simp [breakAtSlashRev, h]
    · simpa only [breakAtSlashRev, if_neg h] using ih

lemma breakAtSlashRev_append (l m : List Char) (h : '/' ∉ l) :
    breakAtSlashRev (l ++ m) = (l ++ (breakAtSlashRev m).1, (breakAtSlashRev m).2) := by
  induction l with
  | nil => simp
  | cons c rest ih =>
    have hc : c ≠ '/' := fun hc => h (hc ▸ List.mem_cons_self c rest)
    have hrest : '/' ∉ rest := fun hr => h (List.mem_cons_of_mem c hr)
    simp only [List.cons_append, breakAtSlashRev, if_neg hc, List.append_eq, ih hrest]

lemma splitDotRev_snd_mem : ∀ (l e s : List Char), splitDotRev l = some (e, s) →
    ∀ c, c ∈ s → c ∈ l := by
  intro l
  induction l with
  | nil => intro e s h; simp [splitDotRev] at h
  | cons c rest ih =>
    intro e s h x hx
    by_cases hc : c = '.'
    · simp only [splitDotRev, if_pos hc, Option.some.injEq, Prod.mk.injEq] at h
      exact List.mem_cons_of_mem _ (h.2 ▸ hx)
    · simp only [splitDotRev, if_neg hc, Option.map_eq_some'] at h
      obtain ⟨⟨e', s'⟩, ha, hfa⟩ := h
      have hs : s = s' := (Prod.mk.injEq _ _ _ _ ▸ hfa).2.symm
      exact List.mem_cons_of_mem _ (ih e' s' ha x (hs ▸ hx))


lemma splitDotRev_cons_ne (c : Char) (rest : List Char) (hcn : ¬ c = '.') :
    splitDotRev (c :: rest) = (splitDotRev rest).map (fun q => (c :: q.1, q.2)) := by
  simp [splitDotRev, hcn]

lemma pySuffix_withSuffix_mp3 (p : String) (h : pySuffix p ≠ "") :
    pySuffix (pyWithSuffix p ".mp3") = ".mp3" := by
  cases hsplit : splitDotRev (pathRevSplit p).1 with
  | none =>
    exfalso; apply h; unfold pySuffix; rw [hsplit]
  | some es =>
    obtain ⟨e, s⟩ := es
    by_cases hc : e ≠ [] ∧ s ≠ []
    case neg =>
      exfalso; apply h; unfold pySuffix; rw [hsplit]; simp [hc]
    case pos =>
      have hW : pyWithSuffix p ".mp3"
          = ⟨(pathRevSplit p).2.reverse ++ (s.reverse ++ ['.', 'm', 'p', '3'])⟩ := by
        simp only [pyWithSuffix]
        rw [hsplit]
        simp [hc.1, hc.2]
      have hsl : '/' ∉ s := fun hmem =>
        breakAtSlashRev_no_slash p.toList.reverse
          (splitDotRev_snd_mem _ _ _ hsplit '/' hmem)
      have hnoslash : '/' ∉ ['3', 'p', 'm', '.'] ++ s := by
        intro hmem
        rcases List.mem_append.mp hmem with hh | hh
        · simp at hh
        · exact hsl hh
      have hsnd : breakAtSlashRev (pathRevSplit p).2 = ([], (pathRevSplit p).2) := by
        simpa [pathRevSplit] using breakAtSlashRev_snd p.toList.reverse
      have hq : pathRevSplit (⟨(pathRevSplit p).2.reverse ++ (s.reverse ++ ['.', 'm', 'p', '3'])⟩ : String)
          = (['3', 'p', 'm', '.'] ++ s, (pathRevSplit p).2) := by
        show breakAtSlashRev (((pathRevSplit p).2.reverse ++ (s.reverse ++ ['.', 'm', 'p', '3'])).reverse)
            = (['3', 'p', 'm', '.'] ++ s, (pathRevSplit p).2)
        have hflip : ((pathRevSplit p).2.reverse ++ (s.reverse ++ ['.', 'm', 'p', '3'])).reverse
            = (['3', 'p', 'm', '.'] ++ s) ++ (pathRevSplit p).2 := by
          simp
        rw [hflip, breakAtSlashRev_append _ _ hnoslash, hsnd, List.append_nil]
      have hdotcons : splitDotRev ('3' :: 'p' :: 'm' :: '.' :: s) = some (['3', 'p', 'm'], s) := by
        rw [splitDotRev_cons_ne '3' _ (by decide), splitDotRev_cons_ne 'p' _ (by decide),
          splitDotRev_cons_ne 'm' _ (by decide)]
        simp [splitDotRev]
      rw [hW]
      simp [pySuffix, hq, hdotcons, hc.2]


/-! ## Normalizer lemmas -/


lemma mem_not_empty_suffix (p : String)
    (h : sfxOf p ∈ convertibleExts) : pySuffix p ≠ "" := by
  intro h0
  rw [sfxOf, h0] at h
  exact absurd h (by decide)

lemma sfx_of_withSuffix_mp3 (p : String)
    (h : sfxOf p ∈ convertibleExts) :
    sfxOf (pyWithSuffix p ".mp3") = ".mp3" := by
  rw [sfxOf, pySuffix_withSuffix_mp3 p (mem_not_empty_suffix p h)]
  decide

theorem ensure_idem (env : Env) (p : String) (rid rid2 : Option String)
    (h : env.ffmpeg p = .success ∨ (ensure_mp3_format env p rid).toolCalls = 0) :
    (ensure_mp3_format { env with fsExists := (ensure_mp3_format env p rid).fs }
        (ensure_mp3_format env p rid).path rid2).path = (ensure_mp3_format env p rid).path ∧
    (ensure_mp3_format { env with fsExists := (ensure_mp3_format env p rid).fs }
        (ensure_mp3_format env p rid).path rid2).toolCalls = 0 := by
  by_cases h1 : sfxOf p = ".mp3"
  · simp [ensure_mp3_format, h1]
  · by_cases h2 : sfxOf p ∈ convertibleExts
    · have hm : sfxOf (pyWithSuffix p ".mp3") = ".mp3" := sfx_of_withSuffix_mp3 p h2
      by_cases h3 : env.fsExists (pyWithSuffix p ".mp3") = true
      · simp [ensure_mp3_format, h1, h2, h3, hm]
      · cases hf : env.ffmpeg p with
        | success => simp [ensure_mp3_format, h1, h2, h3, hf, hm]
        | calledProcessError st =>
          simp [ensure_mp3_format, h1, h2, h3, hf] at h
        | fileNotFoundError =>
          simp [ensure_mp3_format, h1, h2, h3, hf] at h
    · simp [ensure_mp3_format, h1, h2]

theorem ensure_tool_failure (env : Env) (p : String) (rid : Option String)
    (hf : env.ffmpeg p ≠ .success)
    (hinv : 1 ≤ (ensure_mp3_format env p rid).toolCalls) :
    (ensure_mp3_format env p rid).path = p := by
  by_cases h1 : sfxOf p = ".mp3"
  · simp [ensure_mp3_format, h1]
  · by_cases h2 : sfxOf p ∈ convertibleExts
    · by_cases h3 : env.fsExists (pyWithSuffix p ".mp3") = true
      · simp [ensure_mp3_format, h1, h2, h3] at hinv
      · cases hfr : env.ffmpeg p with
        | success => exact absurd hfr hf
        | calledProcessError st => simp [ensure_mp3_format, h1, h2, h3, hfr]
        | fileNotFoundError => simp [ensure_mp3_format, h1, h2, h3, hfr]
    · simp [ensure_mp3_format, h1, h2] at hinv

theorem ensure_db_independent (env : Env) (f g : String → DbOutcome) (p : String)
    (rid : Option String) :
    (ensure_mp3_format { env with dbActionUpdate := f, dbContextUpdate := g } p rid).path
      = (ensure_mp3_format env p rid).path := by
  by_cases h1 : sfxOf p = ".mp3"
  · simp [ensure_mp3_format, h1]
  · by_cases h2 : sfxOf p ∈ convertibleExts
    · by_cases h3 : env.fsExists (pyWithSuffix p ".mp3") = true
      · simp [ensure_mp3_format, h1, h2, h3]
      · cases hfr : env.ffmpeg p with
        | success => simp [ensure_mp3_format, h1, h2, h3, hfr]
        | calledProcessError st => simp [ensure_mp3_format, h1, h2, h3, hfr]
        | fileNotFoundError => simp [ensure_mp3_format, h1, h2, h3, hfr]
    · simp [ensure_mp3_format, h1, h2]


/-! ## Resolver and orchestrator lemmas -/


lemma mem_ownedAll (env : Env) (relId contentId userId : String) (r : RecordingRow)
    (h : r ∈ ownedAll env relId contentId userId) :
    (r.id = relId ∨ r.id = contentId) ∧ r.userId = userId := by
  rcases List.mem_append.mp h with hh | hh <;>
  · have hf := List.mem_filter.mp hh
    simpa using hf.2

lemma resolve_pair_ok (env : Env) (rA rB : RecordingRow) (relId contentId userId : String)
    (hne : relId ≠ contentId)
    (hA : rA.id = relId) (hB : rB.id = contentId)
    (hApath : rA.filePath ≠ "") (hBpath : rB.filePath ≠ "")
    (hAex : env.fsExists rA.filePath = true) (hBex : env.fsExists rB.filePath = true)
    (hrecs : ownedAll env relId contentId userId = [rA, rB] ∨
             ownedAll env relId contentId userId = [rB, rA]) :
    resolveRecordings env relId contentId userId = .ok (rA.filePath, rB.filePath) := by
  have hne' : contentId ≠ relId := fun hh => hne hh.symm
  cases hrecs with
  | inl h =>
    unfold resolveRecordings
    rw [h]
    simp [assignRoles, hApath, hBpath, hAex, hBex, hA, hB, hne', optFalsy]
  | inr h =>
    unfold resolveRecordings
    rw [h]
    simp [assignRoles, hApath, hBpath, hAex, hBex, hA, hB, hne', optFalsy]

lemma body_zero_owned_foreign (env : Env) (relId contentId userId : String)
    (howned : ownedAll env relId contentId userId = [])
    (hany : anyAll env relId contentId ≠ []) :
    dual_audio_body env relId contentId userId =
      (.error (.ownership userId ((anyAll env relId contentId).map RecordingRow.userId)),
        ⟨0, 0, 0⟩) := by
  unfold dual_audio_body resolveRecordings
  rw [howned]
  simp [hany]

lemma body_zero_owned_none (env : Env) (relId contentId userId : String)
    (howned : ownedAll env relId contentId userId = [])
    (hany : anyAll env relId contentId = []) :
    dual_audio_body env relId contentId userId =
      (.error (.notFound relId contentId), ⟨0, 0, 0⟩) := by
  unfold dual_audio_body resolveRecordings
  rw [howned]
  simp [hany]

lemma body_single_owned (env : Env) (relId contentId userId : String) (rec : RecordingRow)
    (h : ownedAll env relId contentId userId = [rec]) :
    dual_audio_body env relId contentId userId =
      (.error (.missingRecording (if rec.id = relId then "content" else "relationship")
                (if rec.id = relId then contentId else relId)), ⟨0, 0, 0⟩) := by
  unfold dual_audio_body resolveRecordings
  rw [h]
  by_cases hid : rec.id = relId <;> simp [hid]

lemma body_missing_file (env : Env) (relId contentId userId : String) (rA rB : RecordingRow)
    (h : ownedAll env relId contentId userId = [rA, rB])
    (hApath : rA.filePath ≠ "") (hAex : env.fsExists rA.filePath = true)
    (hBpath : rB.filePath ≠ "") (hBex : env.fsExists rB.filePath = false) :
    dual_audio_body env relId contentId userId =
      (.error (.fileNotFound rB.filePath rB.id), ⟨0, 0, 0⟩) := by
  unfold dual_audio_body resolveRecordings
  rw [h]
  by_cases hid1 : rA.id = relId <;> by_cases hid2 : rA.id = contentId <;>
    simp [assignRoles, hApath, hAex, hBpath, hBex, hid1, hid2]


/-! ## Substring check, used to inspect error-message content -/

/-- Whether `needle` occurs at the head of `hay`. -/
def subAt : List Char → List Char → Bool
  | [], _ => true
  | _ :: _, [] => false
  | a :: as, b :: bs => a == b && subAt as bs

/-- Whether `needle` occurs anywhere in `hay`. -/
def subAnywhere (needle : List Char) : List Char → Bool
  | [] => subAt needle []
  | c :: rest => subAt needle (c :: rest) || subAnywhere needle rest

/-- Whether `needle` occurs as a substring of `hay`. -/
def strContains (hay needle : String) : Bool :=
  subAnywhere needle.toList hay.toList

example : strContains "Audio file not found: /b.mp3 for recording b" "found" = true := by decide
example : strContains "Audio file not found: /b.mp3 for recording b" "content" = false := by decide

/-! ## Fixtures: concrete rows and environments for the closed theorems -/

def rowA1 : RecordingRow := ⟨"a", "u1", "/a.mp3", "a.mp3", "action"⟩
def rowB1 : RecordingRow := ⟨"b", "u1", "/b.mp3", "b.mp3", "context"⟩
def rowA2 : RecordingRow := ⟨"a", "u2", "/a.mp3", "a.mp3", "action"⟩
def rowB2 : RecordingRow := ⟨"b", "u2", "/b.mp3", "b.mp3", "action"⟩
def rowC1 : RecordingRow := ⟨"c", "u1", "/c.mp3", "c.mp3", "action"⟩
def rowD1 : RecordingRow := ⟨"d", "u1", "/d.mp3", "d.mp3", "context"⟩

def fsBoth : String → Bool := fun q => q == "/a.mp3" || q == "/b.mp3"
def fsOnlyA : String → Bool := fun q => q == "/a.mp3"
def fsOnlyC : String → Bool := fun q => q == "/c.mp3"
def dbOne : String → DbOutcome := fun _ => .rowsAffected 1
def uploadsActive : String → Except String String := fun _ => .ok "ACTIVE"

def envMixedOwners : Env :=
  ⟨[rowA1, rowB2], [], fsBoth, fun _ => .success, dbOne, dbOne, uploadsActive, .ok "TEXT"⟩
def envForeignOnly : Env :=
  ⟨[rowA2], [], fsBoth, fun _ => .success, dbOne, dbOne, uploadsActive, .ok "TEXT"⟩
def envEmptyTables : Env :=
  ⟨[], [], fsBoth, fun _ => .success, dbOne, dbOne, uploadsActive, .ok "TEXT"⟩
def envSingleA : Env :=
  ⟨[rowA1], [], fsBoth, fun _ => .success, dbOne, dbOne, uploadsActive, .ok "TEXT"⟩
def envSingleB : Env :=
  ⟨[], [rowB1], fsBoth, fun _ => .success, dbOne, dbOne, uploadsActive, .ok "TEXT"⟩
def envSwapAB : Env :=
  ⟨[rowB1], [rowA1], fsBoth, fun _ => .success, dbOne, dbOne, uploadsActive, .ok "TEXT"⟩
def envSplitAB : Env :=
  ⟨[rowA1], [rowB1], fsBoth, fun _ => .success, dbOne, dbOne, uploadsActive, .ok "TEXT"⟩
def envMissingB : Env :=
  ⟨[rowA1, rowB1], [], fsOnlyA, fun _ => .success, dbOne, dbOne, uploadsActive, .ok "TEXT"⟩
def envMissingD : Env :=
  ⟨[rowC1], [rowD1], fsOnlyC, fun _ => .success, dbOne, dbOne, uploadsActive, .ok "TEXT"⟩
def envUploadFailed : Env :=
  ⟨[], [], fsBoth, fun _ => .success, dbOne, dbOne, fun _ => .ok "FAILED", .ok "TEXT"⟩
def envNoTool : Env :=
  ⟨[], [], fun _ => false, fun _ => .fileNotFoundError, dbOne, dbOne, uploadsActive, .ok "TEXT"⟩
def envNoTool2 : Env :=
  ⟨[], [], fun _ => false, fun _ => .fileNotFoundError, dbOne, dbOne, uploadsActive, .ok "TEXT"⟩
def envToolOk : Env :=
  ⟨[], [], fun _ => false, fun _ => .success, dbOne, dbOne, uploadsActive, .ok "TEXT"⟩
def envDbBoom : Env :=
  ⟨[], [], fun _ => false, fun _ => .success, fun _ => .raises "boom",
    fun _ => .rowsAffected 0, uploadsActive, .ok "TEXT"⟩
def envDbMiss : Env :=
  ⟨[], [], fun _ => false, fun _ => .success, fun _ => .rowsAffected 0,
    fun _ => .rowsAffected 0, uploadsActive, .ok "TEXT"⟩

/-! ## Claims -/

/-- C1 counterexample: with recording `a` owned by the caller and `b` owned
by a different user, resolution fails with the incomplete-resolution
`Missing content recording` error — not the ownership-specific failure the
claim requires. -/
theorem c1_counterexample :
    dual_audio_body envMixedOwners "a" "b" "u1"
        = (.error (.missingRecording "content" "b"), ⟨0, 0, 0⟩) ∧
      isOwnershipError (.missingRecording "content" "b") = false :=
  ⟨rfl, rfl⟩

/-- C1 amended: the ownership-specific failure occurs exactly when no
caller-owned recording matches either identifier but matching recordings
exist under other owners; when exactly one caller-owned recording matches,
the pipeline instead fails with the `Missing X recording`
(incomplete-resolution) error.  In both cases the failure happens with zero
transcode, metadata-update, and provider side effects. -/
theorem c1_theorem (env : Env) (relId contentId userId : String) :
    (ownedAll env relId contentId userId = [] → anyAll env relId contentId ≠ [] →
      dual_audio_body env relId contentId userId
        = (.error (.ownership userId ((anyAll env relId contentId).map RecordingRow.userId)),
            ⟨0, 0, 0⟩)) ∧
    (∀ rec : RecordingRow, ownedAll env relId contentId userId = [rec] →
      dual_audio_body env relId contentId userId
        = (.error (.missingRecording (if rec.id = relId then "content" else "relationship")
                    (if rec.id = relId then contentId else relId)), ⟨0, 0, 0⟩)) :=
  ⟨fun h1 h2 => body_zero_owned_foreign env relId contentId userId h1 h2,
   fun rec h => body_single_owned env relId contentId userId rec h⟩

/-- C1 witness: both amended branches evaluated at concrete stores. -/
theorem c1_witness :
    dual_audio_body envForeignOnly "a" "b" "u1"
        = (.error (.ownership "u1" ["u2"]), ⟨0, 0, 0⟩) ∧
      dual_audio_body envSingleA "a" "b" "u1"
        = (.error (.missingRecording "content" "b"), ⟨0, 0, 0⟩) :=
  ⟨(c1_theorem envForeignOnly "a" "b" "u1").1 rfl (by decide),
   (c1_theorem envSingleA "a" "b" "u1").2 rowA1 rfl⟩

/-- C2 counterexample: a resolution-stage not-found fault is not surfaced
to the caller as its own typed failure — it reaches the caller re-wrapped
in the same generic `Failed to process audio:` failure shape used for
every other exception. -/
theorem c2_counterexample :
    (dual_audio_body envEmptyTables "a" "b" "u1").1 = .error (.notFound "a" "b") ∧
      (generate_email_from_dual_audio_direct envEmptyTables "a" "b" "u1").1
        = .error "Failed to process audio: No recordings found with IDs a and b" :=
  ⟨rfl, rfl⟩

/-- C2 amended: every failure escaping the pipeline body — resolver faults
included — is re-raised as the single generic failure whose message is
`Failed to process audio: ` followed by the original message; the failure
kinds are distinguishable only by that embedded message text. -/
theorem c2_theorem (env : Env) (relId contentId userId : String) (e : PipeError)
    (eff : Effects)
    (h : dual_audio_body env relId contentId userId = (.error e, eff)) :
    generate_email_from_dual_audio_direct env relId contentId userId
      = (.error ("Failed to process audio: " ++ e.message), eff) := by
  unfold generate_email_from_dual_audio_direct
  rw [h]

/-- C2 witness: the wrapper applied to a concrete resolver fault. -/
theorem c2_witness :
    generate_email_from_dual_audio_direct envEmptyTables "x" "y" "u9"
      = (.error "Failed to process audio: No recordings found with IDs x and y",
          ⟨0, 0, 0⟩) :=
  c2_theorem envEmptyTables "x" "y" "u9" (.notFound "x" "y") ⟨0, 0, 0⟩ rfl

/-- C3 counterexample: supplying the same identifier for both roles fails
with the `Missing content recording` (incomplete-resolution) error, not
with the ambiguous-count failure (or any duplicate-input-specific one). -/
theorem c3_counterexample :
    dual_audio_body envSingleA "a" "a" "u1"
        = (.error (.missingRecording "content" "a"), ⟨0, 0, 0⟩) ∧
      isUnexpectedCountError (.missingRecording "content" "a") = false :=
  ⟨rfl, rfl⟩

/-- C3 amended: when the duplicated identifier resolves to exactly one
caller-owned recording, the pipeline fails — without crashing and with zero
filesystem, metadata, transcode, or provider side effects — with the
incomplete-resolution error `Missing content recording with ID: <id>`. -/
theorem c3_theorem (env : Env) (dupId userId : String) (rec : RecordingRow)
    (h : ownedAll env dupId dupId userId = [rec]) :
    dual_audio_body env dupId dupId userId
      = (.error (.missingRecording "content" dupId), ⟨0, 0, 0⟩) := by
  have hmem : rec ∈ ownedAll env dupId dupId userId := by
    rw [h]; exact List.mem_singleton_self rec
  have hid : rec.id = dupId := by
    rcases (mem_ownedAll env dupId dupId userId rec hmem).1 with hh | hh <;> exact hh
  rw [body_single_owned env dupId dupId userId rec h]
  simp [hid]

/-- C3 witness: duplicate identifier against a concrete store. -/
theorem c3_witness :
    dual_audio_body envSingleB "b" "b" "u1"
      = (.error (.missingRecording "content" "b"), ⟨0, 0, 0⟩) :=
  c3_theorem envSingleB "b" "u1" rowB1 rfl


/-- C4: for distinct identifiers that both resolve to caller-owned
recordings with nonempty paths present on disk, resolution succeeds and
returns exactly the two file paths, each tagged with the role whose input
identifier matches that recording's identifier under string comparison —
whichever order the combined store lookup returns the two rows in. -/
theorem c4_theorem (env : Env) (rA rB : RecordingRow) (relId contentId userId : String)
    (hne : relId ≠ contentId)
    (hA : rA.id = relId) (hB : rB.id = contentId)
    (hApath : rA.filePath ≠ "") (hBpath : rB.filePath ≠ "")
    (hAex : env.fsExists rA.filePath = true) (hBex : env.fsExists rB.filePath = true)
    (hrecs : ownedAll env relId contentId userId = [rA, rB] ∨
             ownedAll env relId contentId userId = [rB, rA]) :
    resolveRecordings env relId contentId userId = .ok (rA.filePath, rB.filePath) :=
  resolve_pair_ok env rA rB relId contentId userId hne hA hB hApath hBpath hAex hBex hrecs

/-- C4 witness: the store returns the content row before the relationship
row, and the roles still follow the identifiers. -/
theorem c4_witness :
    resolveRecordings envSwapAB "a" "b" "u1" = .ok ("/a.mp3", "/b.mp3") :=
  c4_theorem envSwapAB rowA1 rowB1 "a" "b" "u1" (by decide) rfl rfl (by decide) (by decide)
    rfl rfl (Or.inr rfl)

/-- C5: when either upload settles in a non-ready terminal state, or the
generation call raises, the synthesizer does not throw: it returns the
corresponding human-readable error-message string through the same channel
as successful generated text. -/
theorem c5_theorem (env : Env) (relPath contentPath s1 s2 : String)
    (h1 : env.uploadResult relPath = .ok s1) (h2 : env.uploadResult contentPath = .ok s2)
    (hfail : s1 ≠ "ACTIVE" ∨ s2 ≠ "ACTIVE" ∨ (∃ m, env.generate = .error m)) :
    generate_email_from_audio_files_direct env relPath contentPath = fileFailedMessage 1 s1 ∨
    generate_email_from_audio_files_direct env relPath contentPath = fileFailedMessage 2 s2 ∨
    (∃ m, env.generate = .error m ∧
      generate_email_from_audio_files_direct env relPath contentPath = apiFailedMessage m) := by
  by_cases hs1 : s1 = "ACTIVE"
  · by_cases hs2 : s2 = "ACTIVE"
    · rcases hfail with hf | hf | ⟨m, hm⟩
      · exact absurd hs1 hf
      · exact absurd hs2 hf
      · right; right
        exact ⟨m, hm,
          by simp [generate_email_from_audio_files_direct, gemini_body, h1, h2, hs1, hs2, hm]⟩
    · right; left
      simp [generate_email_from_audio_files_direct, gemini_body, h1, h2, hs1, hs2]
  · left
    simp [generate_email_from_audio_files_direct, gemini_body, h1, h2, hs1]

/-- C5 witness: an upload settling in the `FAILED` terminal state. -/
theorem c5_witness :
    generate_email_from_audio_files_direct envUploadFailed "/a.mp3" "/b.mp3"
        = fileFailedMessage 1 "FAILED" ∨
    generate_email_from_audio_files_direct envUploadFailed "/a.mp3" "/b.mp3"
        = fileFailedMessage 2 "FAILED" ∨
    (∃ m, envUploadFailed.generate = .error m ∧
      generate_email_from_audio_files_direct envUploadFailed "/a.mp3" "/b.mp3"
        = apiFailedMessage m) :=
  c5_theorem envUploadFailed "/a.mp3" "/b.mp3" "FAILED" "FAILED" rfl rfl (Or.inl (by decide))

/-- C6: whenever the transcoding tool is invoked and reports an error or is
absent from the environment, `_ensure_mp3_format` returns the original
input path unchanged (and, being a total function, never raises). -/
theorem c6_theorem (env : Env) (p : String) (rid : Option String)
    (hf : env.ffmpeg p ≠ .success)
    (hinv : 1 ≤ (ensure_mp3_format env p rid).toolCalls) :
    (ensure_mp3_format env p rid).path = p := by
  by_cases h1 : sfxOf p = ".mp3"
  · simp [ensure_mp3_format, h1]
  · by_cases h2 : sfxOf p ∈ convertibleExts
    · by_cases h3 : env.fsExists (pyWithSuffix p ".mp3") = true
      · simp [ensure_mp3_format, h1, h2, h3] at hinv
      · cases hfr : env.ffmpeg p with
        | success => exact absurd hfr hf
        | calledProcessError st => simp [ensure_mp3_format, h1, h2, h3, hfr]
        | fileNotFoundError => simp [ensure_mp3_format, h1, h2, h3, hfr]
    · simp [ensure_mp3_format, h1, h2] at hinv

/-- C6 witness: the tool is absent and the original path comes back. -/
theorem c6_witness :
    (ensure_mp3_format envNoTool "u/a.webm" none).path = "u/a.webm" :=
  c6_theorem envNoTool "u/a.webm" none (by decide) (by decide)

/-- C7 counterexample: after a first call that degraded to the original
path because the tool was absent, a second call on the returned path
invokes the transcoding tool again — the claimed universal
no-additional-invocation property fails on the tool-failure path. -/
theorem c7_counterexample :
    (ensure_mp3_format envNoTool2 "a.webm" none).path = "a.webm" ∧
    (ensure_mp3_format envNoTool2 "a.webm" none).toolCalls = 1 ∧
    (ensure_mp3_format
        { envNoTool2 with fsExists := (ensure_mp3_format envNoTool2 "a.webm" none).fs }
        (ensure_mp3_format envNoTool2 "a.webm" none).path none).toolCalls = 1 :=
  ⟨by decide, by decide, by decide⟩

/-- C7 amended: whenever the first call does not end in a failed
transcoding-tool run (already-canonical extension, unknown extension,
cache hit on an existing sibling, or successful conversion), a second call
on the returned path yields the same path with zero additional tool
invocations; after a failed tool run the second call retries the tool. -/
theorem c7_theorem (env : Env) (p : String) (rid rid2 : Option String)
    (h : env.ffmpeg p = .success ∨ (ensure_mp3_format env p rid).toolCalls = 0) :
    (ensure_mp3_format { env with fsExists := (ensure_mp3_format env p rid).fs }
        (ensure_mp3_format env p rid).path rid2).path = (ensure_mp3_format env p rid).path ∧
    (ensure_mp3_format { env with fsExists := (ensure_mp3_format env p rid).fs }
        (ensure_mp3_format env p rid).path rid2).toolCalls = 0 := by
  by_cases h1 : sfxOf p = ".mp3"
  · simp [ensure_mp3_format, h1]
  · by_cases h2 : sfxOf p ∈ convertibleExts
    · have hm : sfxOf (pyWithSuffix p ".mp3") = ".mp3" := sfx_of_withSuffix_mp3 p h2
      by_cases h3 : env.fsExists (pyWithSuffix p ".mp3") = true
      · simp [ensure_mp3_format, h1, h2, h3, hm]
      · cases hf : env.ffmpeg p with
        | success => simp [ensure_mp3_format, h1, h2, h3, hf, hm]
        | calledProcessError st =>
          simp [ensure_mp3_format, h1, h2, h3, hf] at h
        | fileNotFoundError =>
          simp [ensure_mp3_format, h1, h2, h3, hf] at h
    · simp [ensure_mp3_format, h1, h2]

/-- C7 witness: a successful conversion followed by the canonical-path
fast-path on the second call. -/
theorem c7_witness :
    (ensure_mp3_format { envToolOk with fsExists := (ensure_mp3_format envToolOk "b.webm" none).fs }
        (ensure_mp3_format envToolOk "b.webm" none).path none).path
      = (ensure_mp3_format envToolOk "b.webm" none).path ∧
    (ensure_mp3_format { envToolOk with fsExists := (ensure_mp3_format envToolOk "b.webm" none).fs }
        (ensure_mp3_format envToolOk "b.webm" none).path none).toolCalls = 0 :=
  c7_theorem envToolOk "b.webm" none none (Or.inl rfl)

/-- C8 counterexample: the missing-file failure message names the
recording's identifier and file path; it contains neither role word, so it
does not identify the bad input by its relationship/content role. -/
theorem c8_counterexample :
    dual_audio_body envMissingB "a" "b" "u1"
        = (.error (.fileNotFound "/b.mp3" "b"), ⟨0, 0, 0⟩) ∧
      strContains (PipeError.message (.fileNotFound "/b.mp3" "b")) "relationship" = false ∧
      strContains (PipeError.message (.fileNotFound "/b.mp3" "b")) "content" = false :=
  ⟨rfl, by decide, by decide⟩

/-- C8 amended: when both rows resolve but the second row's stored path is
absent from disk (the first being present), the pipeline fails per-recording
with the `Audio file not found` error naming that recording's file path and
identifier (not its role), before any transcode, metadata, or provider side
effect. -/
theorem c8_theorem (env : Env) (relId contentId userId : String) (rA rB : RecordingRow)
    (h : ownedAll env relId contentId userId = [rA, rB])
    (hApath : rA.filePath ≠ "") (hAex : env.fsExists rA.filePath = true)
    (hBpath : rB.filePath ≠ "") (hBex : env.fsExists rB.filePath = false) :
    dual_audio_body env relId contentId userId
      = (.error (.fileNotFound rB.filePath rB.id), ⟨0, 0, 0⟩) :=
  body_missing_file env relId contentId userId rA rB h hApath hAex hBpath hBex

/-- C8 witness: a concrete store where the second recording's file is
missing from disk. -/
theorem c8_witness :
    dual_audio_body envMissingD "c" "d" "u1"
      = (.error (.fileNotFound "/d.mp3" "d"), ⟨0, 0, 0⟩) :=
  c8_theorem envMissingD "c" "d" "u1" rowC1 rowD1 rfl (by decide) rfl (by decide) rfl

/-- C9: when resolution succeeds, the orchestrator returns the packaged
result whose email is exactly the synthesizer's output on the two
normalized paths, together with the fixed processing-method tag
`direct_audio_to_gemini`. -/
theorem c9_theorem (env : Env) (rA rB : RecordingRow) (relId contentId userId : String)
    (hne : relId ≠ contentId)
    (hA : rA.id = relId) (hB : rB.id = contentId)
    (hApath : rA.filePath ≠ "") (hBpath : rB.filePath ≠ "")
    (hAex : env.fsExists rA.filePath = true) (hBex : env.fsExists rB.filePath = true)
    (hrecs : ownedAll env relId contentId userId = [rA, rB] ∨
             ownedAll env relId contentId userId = [rB, rA]) :
    (generate_email_from_dual_audio_direct env relId contentId userId).1
      = .ok ⟨generate_email_from_audio_files_direct env
               (ensure_mp3_format env rA.filePath (some relId)).path
               (ensure_mp3_format
                 { env with fsExists := (ensure_mp3_format env rA.filePath (some relId)).fs }
                 rB.filePath (some contentId)).path,
             "Generated by Gemini 2.5 Pro", "direct_audio_to_gemini"⟩ := by
  unfold generate_email_from_dual_audio_direct dual_audio_body
  rw [resolve_pair_ok env rA rB relId contentId userId hne hA hB hApath hBpath hAex hBex hrecs]

/-- C9 witness: the end-to-end success scenario on a concrete store. -/
theorem c9_witness :
    (generate_email_from_dual_audio_direct envSplitAB "a" "b" "u1").1
      = .ok ⟨"TEXT", "Generated by Gemini 2.5 Pro", "direct_audio_to_gemini"⟩ :=
  c9_theorem envSplitAB rowA1 rowB1 "a" "b" "u1" (by decide) rfl rfl (by decide) (by decide)
    rfl rfl (Or.inl rfl)

/-- C10: the metadata-update helper never raises — a raised database
exception is swallowed into a logged `failed` outcome, an identifier
matching no row in either table yields a silent `notFoundInEither` return —
and the metadata store's behaviour never changes the path
`_ensure_mp3_format` returns. -/
theorem c10_theorem (env : Env) (f g : String → DbOutcome) (p : String)
    (rid : Option String) (ridR mp3 m : String) :
    ((ensure_mp3_format { env with dbActionUpdate := f, dbContextUpdate := g } p rid).path
        = (ensure_mp3_format env p rid).path) ∧
    (env.dbActionUpdate ridR = .raises m →
        update_database_for_mp3 env ridR mp3 = .failed m) ∧
    (env.dbActionUpdate ridR = .rowsAffected 0 → env.dbContextUpdate ridR = .rowsAffected 0 →
        update_database_for_mp3 env ridR mp3 = .notFoundInEither) := by
  refine ⟨ensure_db_independent env f g p rid, ?_, ?_⟩
  · intro h
    unfold update_database_for_mp3
    rw [h]
  · intro hact hctx
    unfold update_database_for_mp3
    rw [hact]
    simp [hctx]

/-- C10 witness: a raising store, an empty store, and path invariance under
a changed store, all at concrete inputs. -/
theorem c10_witness :
    update_database_for_mp3 envDbBoom "r1" "/x.mp3" = .failed "boom" ∧
    update_database_for_mp3 envDbMiss "r1" "/x.mp3" = .notFoundInEither ∧
    (ensure_mp3_format
        { envDbBoom with dbActionUpdate := fun _ => .rowsAffected 1,
                         dbContextUpdate := fun _ => .rowsAffected 1 }
        "a.webm" (some "r1")).path
      = (ensure_mp3_format envDbBoom "a.webm" (some "r1")).path :=
  ⟨(c10_theorem envDbBoom (fun _ => .rowsAffected 1) (fun _ => .rowsAffected 1) "a.webm"
      (some "r1") "r1" "/x.mp3" "boom").2.1 rfl,
   (c10_theorem envDbMiss (fun _ => .rowsAffected 1) (fun _ => .rowsAffected 1) "a.webm"
      (some "r1") "r1" "/x.mp3" "boom").2.2 rfl rfl,
   (c10_theorem envDbBoom (fun _ => .rowsAffected 1) (fun _ => .rowsAffected 1) "a.webm"
      (some "r1") "r1" "/x.mp3" "boom").1⟩
